import Mathlib

/-!
A shallow embedding of the IP forwarding layer of the `gal3/router` repository
(file `src/ip.c`), together with theorems checking the natural-language
specification of that layer against the code.

Modelling conventions:
* Machine integers are `Nat`; where the C code can overflow or truncate we
  reduce modulo the word size explicitly.
* Multi-byte header fields hold the raw value as stored in memory (network
  byte order read on a little-endian host); the byte-order conversions
  `ntohs` and `ntohl` are modelled as the 16- and 32-bit byte swaps they
  perform on such a host.
* The external collaborators (address resolution, link-layer transmit, the
  pending-datagram buffer, ICMP reply generation) are modelled at their
  interface boundary: the resolver is a function field of the router
  instance, and every boundary call is recorded as an `Event` in a trace.
* C `assert` failures (fatal contract violations) are modelled by returning
  `none` from the embedded function.
-/

namespace RouterIP

/-- 16-bit byte swap: model of the POSIX `ntohs` on a little-endian host
(the repository calls it through `<arpa/inet.h>`; its code is not part of
the repository). It is involutive, so it also models `htons`. -/
def ntohs (x : Nat) : Nat :=
  let y := x % 65536
  (y % 256) * 256 + y / 256

/-- `htons` is the same byte swap as `ntohs`. -/
def htons (x : Nat) : Nat := ntohs x

/-- 32-bit byte swap: model of the POSIX `ntohl` on a little-endian host. -/
def ntohl (x : Nat) : Nat :=
  let y := x % 4294967296
  (y % 256) * 16777216 + (y / 256 % 256) * 65536 + (y / 65536 % 256) * 256 + y / 16777216

/-- The IPv4 header, mirroring `struct ip` as used by `src/ip.c`
(fields in declaration order: header length in 32-bit words, version,
type of service, total length, identification, fragment flags/offset,
time to live, protocol, header checksum, source address, destination
address).  The 16- and 32-bit fields hold the raw stored value
(network byte order as read on the host). -/
structure ip where
  ip_hl : Nat
  ip_v : Nat
  ip_tos : Nat
  ip_len : Nat
  ip_id : Nat
  ip_off : Nat
  ip_ttl : Nat
  ip_p : Nat
  ip_sum : Nat
  ip_src : Nat
  ip_dst : Nat
deriving DecidableEq

/-- The header serialized as the ten 16-bit words a `(uint16_t*)` cast of
`struct ip` yields (little-endian host, bitfields `ip_hl`/`ip_v` packed
low-nibble-first in byte 0). -/
def headerWords (h : ip) : List Nat :=
  [ h.ip_hl % 16 + (h.ip_v % 16) * 16 + (h.ip_tos % 256) * 256,
    h.ip_len % 65536,
    h.ip_id % 65536,
    h.ip_off % 65536,
    h.ip_ttl % 256 + (h.ip_p % 256) * 256,
    h.ip_sum % 65536,
    h.ip_src % 65536,
    h.ip_src / 65536 % 65536,
    h.ip_dst % 65536,
    h.ip_dst / 65536 % 65536 ]

/-- One step of 16-bit one's-complement addition (add, then fold the carry
back into the low 16 bits). -/
def addOnes (a b : Nat) : Nat :=
  ((a + b) % 65536) + ((a + b) / 65536)

/-- Modelled from the spec: the checksum routine `csum` is declared in the
repository's headers but its implementation is not under `src/`; §4.1 of the
spec describes it as "the 16-bit one's-complement sum" over the given words,
stored complemented.  `ws` is the list of 16-bit words covered. -/
def csum (ws : List Nat) : Nat :=
  65535 - ws.foldl addOnes 0

/-- The checksum the code computes by `csum((uint16_t*)&hdr, 4*hdr.ip_hl)`
after zeroing the checksum field: the one's-complement checksum over the
first `4 * ip_hl` bytes (`2 * ip_hl` 16-bit words) of the header with
`ip_sum` set to 0. -/
def csumHeader (h : ip) : Nat :=
  csum ((headerWords { h with ip_sum := 0 }).take (2 * h.ip_hl))

/-- A routing table entry, mirroring `struct sr_rt`: destination network
address, subnet mask, gateway (next hop) and egress interface name.
Addresses hold the raw stored (network byte order) value, as in the C
struct's `in_addr` fields. -/
structure sr_rt where
  dest : Nat
  mask : Nat
  gw : Nat
  iface : String
deriving DecidableEq

/-- A router interface, mirroring the part of `struct sr_if` that
`src/ip.c` reads: its name and its assigned IPv4 address (raw stored
value). -/
structure sr_if where
  name : String
  ip : Nat
deriving DecidableEq

/-- Outcome of `resolveMAC`, mirroring the three constants
`ARP_RESOLVE_SUCCESS`, `ARP_REQUEST_SENT`, `ARP_RESOLVE_FAIL` the switch in
`sendIPDatagram` distinguishes; the success case carries the resolved MAC
address. -/
inductive ARPResult where
  | success (mac : Nat)
  | requestSent
  | fail
deriving DecidableEq

/-- The router instance, mirroring the part of `struct sr_instance` that
`src/ip.c` reads: the interface list, the routing table, and the external
address-resolution collaborator (`resolveMAC`), modelled at its interface
boundary as a function of the next-hop IP and egress interface name. -/
structure sr_instance where
  if_list : List sr_if
  routing_table : List sr_rt
  resolve : Nat → String → ARPResult

/-- One observable boundary call made by the IP layer.  `routeLookup`
records the header state at the moment `lookupRoutingTable` is consulted;
`transmit` is either `sendEthFrameContainingIPDatagram` (reusing the
received frame, `reusedFrame = true`) or `ethSendIPDatagram` (fresh frame);
`enqueue` is `bufferIPDatagram`, keyed by the next-hop IP; `drain` is
`handleUndeliverableBufferedIPDatagram`; `allocDatagram` is the `malloc` of
a fresh ICMP datagram; `echoReply` is the `icmp_reply` call; and
`icmpTimeExceeded` is the time-exceeded ICMP dispatch the spec requires —
the code never emits it (the Expired branch is an empty TODO). -/
inductive Event where
  | routeLookup (h : ip)
  | transmit (mac : Nat) (h : ip) (reusedFrame : Bool)
  | enqueue (nextHopIP : Nat) (iface : String) (h : ip)
  | drain (nextHopIP : Nat)
  | allocDatagram (len : Nat)
  | echoReply
  | icmpTimeExceeded (destIP : Nat)
deriving DecidableEq

/-- An in-flight datagram: the header view plus the payload bytes that
follow it in the buffer. -/
structure Datagram where
  hdr : ip
  payload : List Nat
deriving DecidableEq

/-- Modelled from the spec: `IPV4_VERSION` (value 4) from the repository's
headers, not under `src/`. -/
def IPV4_VERSION : Nat := 4

/-- Modelled from the spec: `DEFAULT_IP_HEADER_LEN` — header length 5
words, no options (spec §4.5). -/
def DEFAULT_IP_HEADER_LEN : Nat := 5

/-- Modelled from the spec: `DEFAULT_IP_TOS`, the default type of service
(a fixed constant from the repository's headers, not under `src/`). -/
def DEFAULT_IP_TOS : Nat := 0

/-- Modelled from the spec: `DEFAULT_IP_ID`, the fixed default
identification (no fragmentation, spec §4.5). -/
def DEFAULT_IP_ID : Nat := 0

/-- Modelled from the spec: `DEFAULT_IP_FRAGMENT`, the fixed default
fragment flags/offset (no fragmentation, spec §4.5). -/
def DEFAULT_IP_FRAGMENT : Nat := 0

/-- Modelled from the spec: `DEFAULT_IP_TTL`, the fixed default initial
TTL for locally-originated datagrams (spec §4.5); any fixed nonzero value,
64 here. -/
def DEFAULT_IP_TTL : Nat := 64

/-- `IPPROTO_ICMP`, the IANA protocol number of ICMP (standard value 1). -/
def IPPROTO_ICMP : Nat := 1

/-- Modelled from the spec: `ICMP_REQUEST`, the ICMP echo-request type
byte (standard value 8), from the repository's `icmp.h`, not under
`src/`. -/
def ICMP_REQUEST : Nat := 8

/-- Modelled from the spec: `MIN_ICMP_MSG_LEN`, the "minimum ICMP-message
size floor" asserted by the Composer (spec §4.5); the ICMP header size, 8
bytes. -/
def MIN_ICMP_MSG_LEN : Nat := 8

/-- An entry is a match candidate when destination-network and target
address agree under the entry's mask, both sides converted to host byte
order — the condition of the `if` in `lookupRoutingTable`. -/
abbrev isCandidate (dest_host_ip : Nat) (e : sr_rt) : Prop :=
  ntohl e.dest &&& ntohl e.mask = ntohl dest_host_ip &&& ntohl e.mask

/-- `masked_dest_host_ip` of `lookupRoutingTable`: the target address under
the entry's mask, in host byte order. -/
def maskedTarget (dest_host_ip : Nat) (e : sr_rt) : Nat :=
  ntohl dest_host_ip &&& ntohl e.mask

/-- The scan loop of `lookupRoutingTable`, with the two loop-carried
variables `longest_prefix = lp` and `rt_entry_with_longest_prefix = best`
made explicit; an entry replaces the best-so-far when it is a candidate
and its masked target value is `>=` the best masked value seen. -/
def lookupLoop (dest_host_ip : Nat) : List sr_rt → Nat → Option sr_rt → Option sr_rt
  | [], _, best => best
  | e :: rest, lp, best =>
    if isCandidate dest_host_ip e ∧ lp ≤ maskedTarget dest_host_ip e then
      lookupLoop dest_host_ip rest (maskedTarget dest_host_ip e) (some e)
    else
      lookupLoop dest_host_ip rest lp best

/-- `lookupRoutingTable` of `src/ip.c`: scan the whole table starting from
`longest_prefix = 0` and no entry selected. -/
def lookupRoutingTable (table : List sr_rt) (dest_host_ip : Nat) : Option sr_rt :=
  lookupLoop dest_host_ip table 0 none

/-- `ipDatagramShouldBeDropped` of `src/ip.c`: drop when the total length
field is under 20, the version is not 4, the header length in words exceeds
5, or the checksum recomputed with the checksum field zeroed differs from
the stored one.  The C function receives the header by value, so it has no
effect on the caller's header; here it is a pure function. -/
def ipDatagramShouldBeDropped (h : ip) : Bool :=
  if ntohs h.ip_len < 20 then true
  else if h.ip_v ≠ 4 then true
  else if h.ip_hl > 5 then true
  else if h.ip_sum ≠ csumHeader h then true
  else false

/-- `ipDatagramDestinedForMe` of `src/ip.c`: walk `if_list` and compare
each interface address with the destination. -/
def ipDatagramDestinedForMe (sr : sr_instance) (dest_host_ip : Nat) : Bool :=
  sr.if_list.any fun iface => iface.ip == dest_host_ip

/-- The header produced by `ip_dec_ttl`: TTL decremented, checksum field
zeroed and then recomputed over the modified header. -/
def decTtlHdr (h : ip) : ip :=
  let h1 : ip := { h with ip_ttl := h.ip_ttl - 1, ip_sum := 0 }
  { h1 with ip_sum := csumHeader h1 }

/-- `ip_dec_ttl` of `src/ip.c`: asserts `ip_ttl != 0` (modelled as `none`),
then decrements the TTL and recomputes the checksum. -/
def ip_dec_ttl (h : ip) : Option ip :=
  if h.ip_ttl = 0 then none else some (decTtlHdr h)

/-- `sendIPDatagram` of `src/ip.c` (the Next-Hop Delivery Dispatcher):
decrement the TTL and recompute the checksum, resolve the next hop, then
transmit (reusing the received frame when one encloses the datagram),
enqueue keyed by the next-hop IP, or drain the pending buffer on permanent
failure.  Returns the trace of boundary calls, `none` on a fatal assert. -/
def sendIPDatagram (sr : sr_instance) (next_hop_ip : Nat) (iface : String)
    (h : ip) (eth_frame : Option Unit) : Option (List Event) :=
  match ip_dec_ttl h with
  | none => none
  | some h' =>
    match sr.resolve next_hop_ip iface with
    | ARPResult.success mac =>
      match eth_frame with
      | some _ => some [Event.transmit mac h' true]
      | none => some [Event.transmit mac h' false]
    | ARPResult.requestSent => some [Event.enqueue next_hop_ip iface h']
    | ARPResult.fail => some [Event.drain next_hop_ip]

/-- `forward` of `src/ip.c`: look up the routing table on the destination
address of the (unmodified) header; on a match hand the datagram to
`sendIPDatagram` with the entry's gateway and interface; on no match do
nothing further (the unreachable-ICMP dispatch is an unimplemented TODO).
The `routeLookup` event records the header exactly as the lookup sees
it. -/
def forward (sr : sr_instance) (eth_frame : Option Unit) (h : ip) : Option (List Event) :=
  match lookupRoutingTable sr.routing_table h.ip_dst with
  | some rte =>
    (sendIPDatagram sr rte.gw rte.iface h eth_frame).map
      fun evs => Event.routeLookup h :: evs
  | none => some [Event.routeLookup h]

/-- `processIPDatagramDestinedForMe` of `src/ip.c`: on an ICMP echo
request, dispatch an echo reply; every other protocol or ICMP type is an
unimplemented TODO that does nothing. -/
def processIPDatagramDestinedForMe (dg : Datagram) : List Event :=
  if dg.hdr.ip_p = IPPROTO_ICMP then
    if dg.payload.headD 0 = ICMP_REQUEST then [Event.echoReply] else []
  else []

/-- The classification a received datagram gets in `handleIPDatagram`. -/
inductive Branch where
  | dropped
  | localDelivery
  | forwardPkt
  | expired
deriving DecidableEq

/-- The branch structure of `handleIPDatagram` (`src/ip.c` lines 103-122):
drop on failed validation; otherwise local delivery when the destination
matches an interface address; otherwise forward when `ip_ttl != 0`;
otherwise the Expired branch. -/
def handleIPDatagramBranch (sr : sr_instance) (h : ip) : Branch :=
  if ipDatagramShouldBeDropped h then Branch.dropped
  else if ipDatagramDestinedForMe sr h.ip_dst then Branch.localDelivery
  else if h.ip_ttl ≠ 0 then Branch.forwardPkt
  else Branch.expired

/-- `handleIPDatagram` of `src/ip.c`: the entry point.  The dropped branch
and the Expired branch produce no boundary calls (the time-exceeded ICMP
of the Expired branch is an unimplemented TODO). -/
def handleIPDatagram (sr : sr_instance) (eth_frame : Option Unit) (dg : Datagram) :
    Option (List Event) :=
  match handleIPDatagramBranch sr dg.hdr with
  | Branch.dropped => some []
  | Branch.localDelivery => some (processIPDatagramDestinedForMe dg)
  | Branch.forwardPkt => forward sr eth_frame dg.hdr
  | Branch.expired => some []

/-- `setupIPHeaderForICMP` of `src/ip.c`: fill in every header field for an
ICMP-bearing datagram — except the checksum field, which the C function
never writes (it keeps whatever the underlying memory held; the checksum
is computed later by `ip_dec_ttl` inside `sendIPDatagram`).  `h0` is the
header view of the freshly allocated, uninitialized buffer. -/
def setupIPHeaderForICMP (h0 : ip) (ip_datagram_total_len src_ip dest_ip : Nat) : ip :=
  { h0 with
    ip_v := IPV4_VERSION,
    ip_hl := DEFAULT_IP_HEADER_LEN,
    ip_tos := DEFAULT_IP_TOS,
    ip_len := htons ip_datagram_total_len,
    ip_id := htons DEFAULT_IP_ID,
    ip_off := htons DEFAULT_IP_FRAGMENT,
    ip_ttl := DEFAULT_IP_TTL,
    ip_p := IPPROTO_ICMP,
    ip_src := src_ip,
    ip_dst := dest_ip }

/-- `sendIcmpMessageWithSrcIP` of `src/ip.c`: after the asserts (modelled
as `none`), look up a route to the destination; with no route, return
silently with no boundary call at all; otherwise allocate a datagram of
`20 + icmp_msg_len` bytes (truncated to `uint16_t`), build its header, copy
the payload and dispatch it with no enclosing frame.  `mem` is the header
view of the uninitialized `malloc` memory. -/
def sendIcmpMessageWithSrcIP (sr : sr_instance) (icmp_msg_len dest_ip src_ip : Nat)
    (mem : ip) : Option (List Event) :=
  if icmp_msg_len < MIN_ICMP_MSG_LEN then none
  else if src_ip = 0 then none
  else if dest_ip = 0 then none
  else
    match lookupRoutingTable sr.routing_table dest_ip with
    | none => some []
    | some rte =>
      let totalLen := (20 + icmp_msg_len) % 65536
      let h := setupIPHeaderForICMP mem totalLen src_ip dest_ip
      match sendIPDatagram sr rte.gw rte.iface h none with
      | none => none
      | some evs => some (Event.allocDatagram totalLen :: evs)

/-- `sendIcmpMessage` of `src/ip.c`: the no-explicit-source variant; uses
the address of the first interface on `if_list` as source (asserting the
list is non-empty) and delegates to `sendIcmpMessageWithSrcIP`. -/
def sendIcmpMessage (sr : sr_instance) (icmp_msg_len dest_ip : Nat)
    (mem : ip) : Option (List Event) :=
  if icmp_msg_len < MIN_ICMP_MSG_LEN then none
  else if dest_ip = 0 then none
  else
    match sr.if_list with
    | [] => none
    | iface :: _ => sendIcmpMessageWithSrcIP sr icmp_msg_len dest_ip iface.ip mem

/-- Does an event carry the header being handed to transmit or enqueue? -/
def dispatchHeader : Event → Option ip
  | Event.transmit _ h _ => some h
  | Event.enqueue _ _ h => some h
  | _ => none

/-- Is the event a link-layer transmit call? -/
def isTransmit : Event → Bool
  | Event.transmit _ _ _ => true
  | _ => false

/-- Is the event an enqueue (`bufferIPDatagram`) call? -/
def isEnqueue : Event → Bool
  | Event.enqueue _ _ _ => true
  | _ => false

/-- Does the trace contain a time-exceeded ICMP dispatch? -/
def hasTimeExceeded (evs : List Event) : Bool :=
  evs.any fun ev =>
    match ev with
    | Event.icmpTimeExceeded _ => true
    | _ => false

/-- The `10.0.0.0/8` entry of the spec's longest-prefix-match example
(addresses stored in network byte order, hence the `ntohl`). -/
def entry8 : sr_rt :=
  { dest := ntohl 0x0A000000, mask := ntohl 0xFF000000,
    gw := ntohl 0x0A000001, iface := "eth0" }

/-- The `10.0.1.0/24` entry of the spec's longest-prefix-match example. -/
def entry24 : sr_rt :=
  { dest := ntohl 0x0A000100, mask := ntohl 0xFFFFFF00,
    gw := ntohl 0x0A000102, iface := "eth1" }

/-- The two-entry example table of spec §8. -/
def exTable : List sr_rt := [entry8, entry24]

/-- A 20-byte ICMP header destined for `10.0.1.5`, checksum not yet
filled in. -/
def exHdrBase : ip :=
  { ip_hl := 5, ip_v := 4, ip_tos := 0, ip_len := htons 20, ip_id := 0,
    ip_off := 0, ip_ttl := 64, ip_p := 1, ip_sum := 0,
    ip_src := ntohl 0x0A000001, ip_dst := ntohl 0x0A000105 }

/-- `exHdrBase` with a correct checksum: it passes validation. -/
def exHdr : ip := { exHdrBase with ip_sum := csumHeader exHdrBase }

/-- A header with total length 10 < 20: it fails validation. -/
def badHdr : ip := { exHdrBase with ip_len := htons 10 }

/-- A router owning address `10.0.1.5` (the destination of `exHdr`). -/
def sr3 : sr_instance :=
  { if_list := [{ name := "eth0", ip := ntohl 0x0A000105 }],
    routing_table := exTable,
    resolve := fun _ _ => ARPResult.fail }

/-- A router that owns `11.0.0.1` only and whose resolver always answers
`requestSent` (ARP request sent, no cached answer). -/
def sr4 : sr_instance :=
  { if_list := [{ name := "eth0", ip := ntohl 0x0B000001 }],
    routing_table := exTable,
    resolve := fun _ _ => ARPResult.requestSent }

/-- A TCP datagram header with TTL 1 destined for `10.0.1.5`, checksum
not yet filled in. -/
def hdr4base : ip :=
  { ip_hl := 5, ip_v := 4, ip_tos := 0, ip_len := htons 40, ip_id := 0,
    ip_off := 0, ip_ttl := 1, ip_p := 6, ip_sum := 0,
    ip_src := ntohl 0x0C000001, ip_dst := ntohl 0x0A000105 }

/-- `hdr4base` with a correct checksum: a valid datagram with TTL 1 not
destined for any interface of `sr4`. -/
def hdr4 : ip := { hdr4base with ip_sum := csumHeader hdr4base }

/-- `hdr4` after the dispatcher's TTL decrement. -/
def hdr4d : ip := decTtlHdr hdr4

/-- A valid header arriving with TTL 5. -/
def hdr5 : ip := { exHdrBase with ip_ttl := 5 }

/-- First of two routing entries with identical destination and mask
(differing gateways), for the tie-break example. -/
def entryA : sr_rt :=
  { dest := ntohl 0x0A000000, mask := ntohl 0xFF000000,
    gw := ntohl 0x0A000001, iface := "eth0" }

/-- Second of two routing entries with identical destination and mask. -/
def entryB : sr_rt :=
  { dest := ntohl 0x0A000000, mask := ntohl 0xFF000000,
    gw := ntohl 0x0A000002, iface := "eth1" }

/-- An all-zero header: the model of zero-initialized scratch memory. -/
def mem7 : ip :=
  { ip_hl := 0, ip_v := 0, ip_tos := 0, ip_len := 0, ip_id := 0,
    ip_off := 0, ip_ttl := 0, ip_p := 0, ip_sum := 0, ip_src := 0, ip_dst := 0 }

/-- The header `setupIPHeaderForICMP` builds over zeroed memory for a
48-byte datagram from `10.0.0.1` to `12.0.0.1`. -/
def r7 : ip := setupIPHeaderForICMP mem7 48 (ntohl 0x0A000001) (ntohl 0x0C000001)

/-- Uninitialized `malloc` memory whose checksum slot happens to hold a
value one above the correct checksum of the header built over it. -/
def mem7x : ip := { mem7 with ip_sum := csumHeader r7 + 1 }

/-- The header `setupIPHeaderForICMP` builds over the memory `mem7x`. -/
def r7x : ip := setupIPHeaderForICMP mem7x 48 (ntohl 0x0A000001) (ntohl 0x0C000001)

/-- A router with one interface and an empty routing table: no destination
has a route. -/
def sr8 : sr_instance :=
  { if_list := [{ name := "eth0", ip := ntohl 0x0A000001 }],
    routing_table := [],
    resolve := fun _ _ => ARPResult.fail }

/-- Once the scan has selected some entry, it never goes back to having
none: the loop only ever replaces the best entry. -/
theorem lookupLoop_some_ne_none (d : Nat) (l : List sr_rt) :
    ∀ (lp : Nat) (b : sr_rt), lookupLoop d l lp (some b) ≠ none := by
  induction l with
  | nil => intro lp b h; exact Option.noConfusion h
  | cons e rest ih =>
    intro lp b
    simp only [lookupLoop]
    split
    · exact ih _ _
    · exact ih _ _

/-- If the scan ends with no entry, it started with none and no scanned
entry was a candidate clearing the starting threshold. -/
theorem lookupLoop_eq_none (d : Nat) (l : List sr_rt) :
    ∀ (lp : Nat) (best : Option sr_rt), lookupLoop d l lp best = none →
      best = none ∧ ∀ e ∈ l, ¬(isCandidate d e ∧ lp ≤ maskedTarget d e) := by
  induction l with
  | nil =>
    intro lp best h
    refine ⟨h, ?_⟩
    intro e he
    cases he
  | cons e rest ih =>
    intro lp best h
    simp only [lookupLoop] at h
    by_cases hc : isCandidate d e ∧ lp ≤ maskedTarget d e
    · rw [if_pos hc] at h
      exact absurd h (lookupLoop_some_ne_none d rest _ e)
    · rw [if_neg hc] at h
      rcases ih _ _ h with ⟨hb, hrest⟩
      refine ⟨hb, ?_⟩
      intro c hcm
      rcases List.mem_cons.mp hcm with h1 | h2
      · rw [h1]; exact hc
      · exact hrest c h2

/-- If no entry of the list is a candidate clearing the threshold, the scan
started with no entry ends with none. -/
theorem lookupLoop_none_of (d : Nat) (l : List sr_rt) :
    ∀ lp, (∀ e ∈ l, ¬(isCandidate d e ∧ lp ≤ maskedTarget d e)) →
      lookupLoop d l lp none = none := by
  induction l with
  | nil => intro lp _; rfl
  | cons e rest ih =>
    intro lp hno
    simp only [lookupLoop]
    rw [if_neg (hno e (List.mem_cons_self e rest))]
    exact ih lp fun c hc => hno c (List.mem_cons_of_mem e hc)

/-- If no remaining entry is a candidate clearing the current threshold,
the currently selected entry survives to the end of the scan. -/
theorem lookupLoop_stay (d : Nat) (l : List sr_rt) :
    ∀ (lp : Nat) (b : sr_rt),
      (∀ c ∈ l, ¬(isCandidate d c ∧ lp ≤ maskedTarget d c)) →
      lookupLoop d l lp (some b) = some b := by
  induction l with
  | nil => intro lp b _; rfl
  | cons c rest ih =>
    intro lp b hno
    simp only [lookupLoop]
    rw [if_neg (hno c (List.mem_cons_self c rest))]
    exact ih lp b fun x hx => hno x (List.mem_cons_of_mem c hx)

/-- Main loop invariant: when the threshold equals the masked value of the
selected candidate, the scan's final selection is a candidate whose masked
target value dominates every candidate of the remaining list. -/
theorem lookupLoop_max (d : Nat) (l : List sr_rt) :
    ∀ (lp : Nat) (best : Option sr_rt) (e : sr_rt),
      lookupLoop d l lp best = some e →
      (∀ b, best = some b → isCandidate d b ∧ maskedTarget d b = lp) →
      (best = some e ∨ e ∈ l) ∧ isCandidate d e ∧ lp ≤ maskedTarget d e ∧
        ∀ c ∈ l, isCandidate d c → maskedTarget d c ≤ maskedTarget d e := by
  induction l with
  | nil =>
    intro lp best e h hinv
    rcases hinv e h with ⟨hc, hm⟩
    refine ⟨Or.inl h, hc, le_of_eq hm.symm, ?_⟩
    intro c hcm
    cases hcm
  | cons c rest ih =>
    intro lp best e h hinv
    simp only [lookupLoop] at h
    by_cases hcond : isCandidate d c ∧ lp ≤ maskedTarget d c
    · rw [if_pos hcond] at h
      have hinv' : ∀ b, (some c : Option sr_rt) = some b →
          isCandidate d b ∧ maskedTarget d b = maskedTarget d c := by
        intro b hb
        cases hb
        exact ⟨hcond.1, rfl⟩
      rcases ih _ _ _ h hinv' with ⟨hmem, hce, hle, hall⟩
      refine ⟨?_, hce, le_trans hcond.2 hle, ?_⟩
      · rcases hmem with h1 | h2
        · cases h1; exact Or.inr (List.mem_cons_self _ _)
        · exact Or.inr (List.mem_cons_of_mem _ h2)
      · intro x hx hcx
        rcases List.mem_cons.mp hx with h1 | h2
        · rw [h1]; exact hle
        · exact hall x h2 hcx
    · rw [if_neg hcond] at h
      rcases ih _ _ _ h hinv with ⟨hmem, hce, hle, hall⟩
      refine ⟨?_, hce, hle, ?_⟩
      · rcases hmem with h1 | h2
        · exact Or.inl h1
        · exact Or.inr (List.mem_cons_of_mem _ h2)
      · intro x hx hcx
        rcases List.mem_cons.mp hx with h1 | h2
        · have hnx : ¬ lp ≤ maskedTarget d x := by
            intro hh
            rw [h1] at hcx hh
            exact hcond ⟨hcx, hh⟩
          omega
        · exact hall x h2 hcx

/-- A candidate whose masked value weakly dominates everything before it
and strictly dominates every candidate after it is the scan's final
selection, whatever state the scan is in when it reaches it (the `>=`
comparison lets it replace an equal-valued earlier selection). -/
theorem lookupLoop_last (d : Nat) (e : sr_rt) (l2 : List sr_rt)
    (hc : isCandidate d e)
    (h2 : ∀ c ∈ l2, isCandidate d c → maskedTarget d c < maskedTarget d e) :
    ∀ (l1 : List sr_rt) (lp : Nat) (best : Option sr_rt),
      lp ≤ maskedTarget d e →
      (∀ c ∈ l1, isCandidate d c → maskedTarget d c ≤ maskedTarget d e) →
      lookupLoop d (l1 ++ e :: l2) lp best = some e := by
  intro l1
  induction l1 with
  | nil =>
    intro lp best hlp _
    simp only [List.nil_append, lookupLoop]
    rw [if_pos ⟨hc, hlp⟩]
    apply lookupLoop_stay
    intro c hcm hand
    exact absurd hand.2 (Nat.not_le_of_lt (h2 c hcm hand.1))
  | cons c l1x ih =>
    intro lp best hlp h1
    simp only [List.cons_append, lookupLoop]
    by_cases hcond : isCandidate d c ∧ lp ≤ maskedTarget d c
    · rw [if_pos hcond]
      exact ih (maskedTarget d c) (some c)
        (h1 c (List.mem_cons_self _ _) hcond.1)
        (fun x hx hcx => h1 x (List.mem_cons_of_mem _ hx) hcx)
    · rw [if_neg hcond]
      exact ih lp best hlp fun x hx hcx => h1 x (List.mem_cons_of_mem _ hx) hcx

/-- Claim C1: `lookupRoutingTable` scans all entries, treats an entry as a
candidate exactly when destination and target agree under the entry's mask
in host byte order, returns a table entry that is a candidate whose masked
target value is maximal among all candidates, and returns none exactly when
no entry is a candidate; on the `10.0.0.0/8` and `10.0.1.0/24` example
table, `10.0.1.5` resolves to the `/24` entry, `10.0.2.5` to the `/8`
entry, and `192.168.1.1` to none. -/
theorem lookupRoutingTable_spec :
    (∀ (tbl : List sr_rt) (d : Nat),
      lookupRoutingTable tbl d = none ↔ ∀ e ∈ tbl, ¬ isCandidate d e) ∧
    (∀ (tbl : List sr_rt) (d : Nat) (e : sr_rt),
      lookupRoutingTable tbl d = some e →
        e ∈ tbl ∧ isCandidate d e ∧
        ∀ c ∈ tbl, isCandidate d c → maskedTarget d c ≤ maskedTarget d e) ∧
    lookupRoutingTable exTable (ntohl 0x0A000105) = some entry24 ∧
    lookupRoutingTable exTable (ntohl 0x0A000205) = some entry8 ∧
    lookupRoutingTable exTable (ntohl 0xC0A80101) = none := by
  refine ⟨?_, ?_, by decide, by decide, by decide⟩
  · intro tbl d
    simp only [lookupRoutingTable]
    constructor
    · intro h e he hc
      rcases lookupLoop_eq_none d tbl 0 none h with ⟨-, hall⟩
      exact hall e he ⟨hc, Nat.zero_le _⟩
    · intro h
      apply lookupLoop_none_of
      intro e he hand
      exact h e he hand.1
  · intro tbl d e h
    simp only [lookupRoutingTable] at h
    have hinv : ∀ b, (none : Option sr_rt) = some b →
        isCandidate d b ∧ maskedTarget d b = 0 := by
      intro b hb
      cases hb
    rcases lookupLoop_max d tbl 0 none e h hinv with ⟨hmem, hc, -, hall⟩
    rcases hmem with h1 | h2
    · cases h1
    · exact ⟨h2, hc, hall⟩

/-- Witness for claim C1, at the spec's own no-match example. -/
theorem lookupRoutingTable_spec_witness :
    lookupRoutingTable exTable (ntohl 0xC0A80101) = none :=
  (lookupRoutingTable_spec.1 exTable (ntohl 0xC0A80101)).mpr (by decide)

/-- Claim C10: the comparison against the best-so-far masked value is
non-strict, so among entries tied at the maximal masked value the last one
in table-scan order is returned: an entry that is a candidate, weakly
dominates every earlier candidate (equality allowed) and strictly
dominates every later candidate is the result. -/
theorem lookupRoutingTable_tie_last :
    ∀ (l1 l2 : List sr_rt) (e : sr_rt) (d : Nat),
      isCandidate d e →
      (∀ c ∈ l1, isCandidate d c → maskedTarget d c ≤ maskedTarget d e) →
      (∀ c ∈ l2, isCandidate d c → maskedTarget d c < maskedTarget d e) →
      lookupRoutingTable (l1 ++ e :: l2) d = some e := by
  intro l1 l2 e d hc h1 h2
  simp only [lookupRoutingTable]
  exact lookupLoop_last d e l2 hc h2 l1 0 none (Nat.zero_le _) h1

/-- Witness for claim C10: two entries match `10.0.5.5` with the same
masked value (same destination and mask, different gateways); the second
one is returned. -/
theorem lookupRoutingTable_tie_last_witness :
    lookupRoutingTable [entryA, entryB] (ntohl 0x0A000505) = some entryB :=
  lookupRoutingTable_tie_last [entryA] [] entryB (ntohl 0x0A000505)
    (by decide) (by decide) (by decide)

/-- Claim C2: `ipDatagramShouldBeDropped` returns true exactly when the
total-length field is under 20 bytes, or the version is not 4, or the
header length in words exceeds 5, or the checksum recomputed over the
header's `4 * ip_hl` bytes with the checksum field zeroed differs from the
stored checksum.  The C function takes the header by value, so the
caller's header is untouched — the embedding is a pure function. -/
theorem ipDatagramShouldBeDropped_iff :
    ∀ h : ip, ipDatagramShouldBeDropped h = true ↔
      (ntohs h.ip_len < 20 ∨ h.ip_v ≠ 4 ∨ h.ip_hl > 5 ∨
        h.ip_sum ≠ csumHeader h) := by
  intro h
  unfold ipDatagramShouldBeDropped
  by_cases h1 : ntohs h.ip_len < 20 <;>
  by_cases h2 : h.ip_v = 4 <;>
  by_cases h3 : h.ip_hl > 5 <;>
  by_cases h4 : h.ip_sum = csumHeader h <;>
  simp [h1, h2, h3, h4]

/-- Witness for claim C2: a header with total length 10 is dropped. -/
theorem ipDatagramShouldBeDropped_iff_witness :
    ipDatagramShouldBeDropped badHdr = true :=
  (ipDatagramShouldBeDropped_iff badHdr).mpr (by decide)

/-- Claim C3: a validated datagram takes exactly one of the three
branches of `handleIPDatagram`: Local-delivery exactly when the
destination equals some interface address (regardless of TTL), Forward
exactly when it is not local and the TTL is nonzero, Expired exactly when
it is not local and the TTL is zero. -/
theorem handleIPDatagramBranch_trichotomy :
    ∀ (sr : sr_instance) (h : ip),
      ipDatagramShouldBeDropped h = false →
      (handleIPDatagramBranch sr h = Branch.localDelivery ∨
       handleIPDatagramBranch sr h = Branch.forwardPkt ∨
       handleIPDatagramBranch sr h = Branch.expired) ∧
      (handleIPDatagramBranch sr h = Branch.localDelivery ↔
        ipDatagramDestinedForMe sr h.ip_dst = true) ∧
      (handleIPDatagramBranch sr h = Branch.forwardPkt ↔
        (ipDatagramDestinedForMe sr h.ip_dst = false ∧ h.ip_ttl ≠ 0)) ∧
      (handleIPDatagramBranch sr h = Branch.expired ↔
        (ipDatagramDestinedForMe sr h.ip_dst = false ∧ h.ip_ttl = 0)) := by
  intro sr h hv
  unfold handleIPDatagramBranch
  rcases Bool.eq_false_or_eq_true (ipDatagramDestinedForMe sr h.ip_dst) with hd | hd <;>
  by_cases ht : h.ip_ttl = 0 <;>
  simp [hv, hd, ht]

/-- Witness for claim C3: a valid echo request addressed to `sr3`'s own
interface address is classified Local-delivery. -/
theorem handleIPDatagramBranch_trichotomy_witness :
    handleIPDatagramBranch sr3 exHdr = Branch.localDelivery :=
  ((handleIPDatagramBranch_trichotomy sr3 exHdr (by decide)).2.1).mpr (by decide)

/-- The dispatcher never emits a time-exceeded ICMP event. -/
theorem sendIPDatagram_noTE (sr : sr_instance) (nh : Nat) (ifc : String)
    (h : ip) (fr : Option Unit) (evs : List Event) :
    sendIPDatagram sr nh ifc h fr = some evs → hasTimeExceeded evs = false := by
  intro hsd
  unfold sendIPDatagram at hsd
  cases hdec : ip_dec_ttl h with
  | none => rw [hdec] at hsd; cases hsd
  | some h' =>
    rw [hdec] at hsd
    cases hres : sr.resolve nh ifc with
    | success mac =>
      rw [hres] at hsd
      cases fr with
      | some u => cases hsd; rfl
      | none => cases hsd; rfl
    | requestSent => rw [hres] at hsd; cases hsd; rfl
    | fail => rw [hres] at hsd; cases hsd; rfl

/-- Unfolding of `forward` on a successful routing lookup. -/
theorem forward_eq_of_lookup (sr : sr_instance) (fr : Option Unit) (h : ip)
    (rte : sr_rt) (hlk : lookupRoutingTable sr.routing_table h.ip_dst = some rte) :
    forward sr fr h =
      (sendIPDatagram sr rte.gw rte.iface h fr).map
        fun evs => Event.routeLookup h :: evs := by
  unfold forward
  rw [hlk]

/-- Unfolding of `forward` on a failed routing lookup. -/
theorem forward_eq_of_no_lookup (sr : sr_instance) (fr : Option Unit) (h : ip)
    (hlk : lookupRoutingTable sr.routing_table h.ip_dst = none) :
    forward sr fr h = some [Event.routeLookup h] := by
  unfold forward
  rw [hlk]

/-- `forward` never emits a time-exceeded ICMP event. -/
theorem forward_noTE (sr : sr_instance) (fr : Option Unit) (h : ip)
    (evs : List Event) :
    forward sr fr h = some evs → hasTimeExceeded evs = false := by
  intro hf
  cases hlk : lookupRoutingTable sr.routing_table h.ip_dst with
  | none =>
    rw [forward_eq_of_no_lookup sr fr h hlk] at hf
    cases hf
    rfl
  | some rte =>
    rw [forward_eq_of_lookup sr fr h rte hlk] at hf
    cases hsd : sendIPDatagram sr rte.gw rte.iface h fr with
    | none => rw [hsd] at hf; cases hf
    | some evs2 =>
      rw [hsd] at hf
      cases hf
      have h2 := sendIPDatagram_noTE sr rte.gw rte.iface h fr evs2 hsd
      simp only [hasTimeExceeded, List.any_cons] at h2 ⊢
      simpa using h2

/-- Claim C4 counterexample: `hdr4` is a valid datagram with TTL 1 whose
destination `10.0.1.5` is not an address of `sr4`; `handleIPDatagram`
performs a routing lookup on it and dispatches it to delivery (here:
enqueued pending resolution), and no time-exceeded ICMP is dispatched —
the claim says such a datagram triggers a time-exceeded dispatch and is
never looked up or dispatched. -/
theorem ttl1_forwarded_counterexample :
    ipDatagramShouldBeDropped hdr4 = false ∧
    ipDatagramDestinedForMe sr4 hdr4.ip_dst = false ∧
    hdr4.ip_ttl = 1 ∧
    handleIPDatagram sr4 none { hdr := hdr4, payload := [] } =
      some [Event.routeLookup hdr4, Event.enqueue entry24.gw "eth1" hdr4d] ∧
    hasTimeExceeded
      [Event.routeLookup hdr4, Event.enqueue entry24.gw "eth1" hdr4d] = false := by
  decide

/-- Claim C4 (amended): a valid datagram with TTL 1 not destined for any
local interface takes the Forward branch — `handleIPDatagram` runs
`forward` on it, performing a routing lookup and attempting delivery
dispatch — and no time-exceeded ICMP is dispatched (the Expired branch,
reached only at TTL 0 on arrival, is an unimplemented TODO). -/
theorem ttl1_takes_forward_branch :
    ∀ (sr : sr_instance) (eth_frame : Option Unit) (dg : Datagram),
      ipDatagramShouldBeDropped dg.hdr = false →
      ipDatagramDestinedForMe sr dg.hdr.ip_dst = false →
      dg.hdr.ip_ttl = 1 →
      handleIPDatagramBranch sr dg.hdr = Branch.forwardPkt ∧
      handleIPDatagram sr eth_frame dg = forward sr eth_frame dg.hdr ∧
      ∀ evs, handleIPDatagram sr eth_frame dg = some evs →
        hasTimeExceeded evs = false := by
  intro sr fr dg hv hd ht
  have hb : handleIPDatagramBranch sr dg.hdr = Branch.forwardPkt := by
    unfold handleIPDatagramBranch
    simp [hv, hd, ht]
  have hrun : handleIPDatagram sr fr dg = forward sr fr dg.hdr := by
    unfold handleIPDatagram
    rw [hb]
  refine ⟨hb, hrun, ?_⟩
  intro evs hevs
  rw [hrun] at hevs
  exact forward_noTE sr fr dg.hdr evs hevs

/-- Witness for the amended claim C4, at the concrete router `sr4` and
valid TTL-1 datagram `hdr4`. -/
theorem ttl1_takes_forward_branch_witness :
    handleIPDatagramBranch sr4 hdr4 = Branch.forwardPkt ∧
    handleIPDatagram sr4 none { hdr := hdr4, payload := [] } =
      forward sr4 none hdr4 ∧
    ∀ evs, handleIPDatagram sr4 none { hdr := hdr4, payload := [] } = some evs →
      hasTimeExceeded evs = false :=
  ttl1_takes_forward_branch sr4 none { hdr := hdr4, payload := [] }
    (by decide) (by decide) (by decide)

/-- Claim C5: in the Forward branch the routing lookup still sees the
original header (original TTL); the TTL is decremented exactly once, by
`ip_dec_ttl` inside `sendIPDatagram`, and every header handed to transmit
or enqueue is exactly the once-decremented header. -/
theorem forward_ttl_decrement_in_dispatch :
    ∀ (sr : sr_instance) (eth_frame : Option Unit) (h : ip) (rte : sr_rt),
      h.ip_ttl ≠ 0 →
      lookupRoutingTable sr.routing_table h.ip_dst = some rte →
      ∃ evs,
        sendIPDatagram sr rte.gw rte.iface h eth_frame = some evs ∧
        forward sr eth_frame h = some (Event.routeLookup h :: evs) ∧
        ip_dec_ttl h = some (decTtlHdr h) ∧
        (decTtlHdr h).ip_ttl + 1 = h.ip_ttl ∧
        ∀ ev ∈ evs, ∀ hd, dispatchHeader ev = some hd → hd = decTtlHdr h := by
  intro sr fr h rte ht hlk
  have hdec : ip_dec_ttl h = some (decTtlHdr h) := by
    unfold ip_dec_ttl
    rw [if_neg ht]
  have httl : (decTtlHdr h).ip_ttl + 1 = h.ip_ttl := by
    show h.ip_ttl - 1 + 1 = h.ip_ttl
    omega
  have hsd : ∃ evs, sendIPDatagram sr rte.gw rte.iface h fr = some evs ∧
      ∀ ev ∈ evs, ∀ hd, dispatchHeader ev = some hd → hd = decTtlHdr h := by
    unfold sendIPDatagram
    rw [hdec]
    cases hres : sr.resolve rte.gw rte.iface with
    | success mac =>
      cases fr with
      | some u =>
        refine ⟨[Event.transmit mac (decTtlHdr h) true], rfl, ?_⟩
        intro ev hm hd hdh
        rcases List.mem_singleton.mp hm with rfl
        cases hdh
        rfl
      | none =>
        refine ⟨[Event.transmit mac (decTtlHdr h) false], rfl, ?_⟩
        intro ev hm hd hdh
        rcases List.mem_singleton.mp hm with rfl
        cases hdh
        rfl
    | requestSent =>
      refine ⟨[Event.enqueue rte.gw rte.iface (decTtlHdr h)], rfl, ?_⟩
      intro ev hm hd hdh
      rcases List.mem_singleton.mp hm with rfl
      cases hdh
      rfl
    | fail =>
      refine ⟨[Event.drain rte.gw], rfl, ?_⟩
      intro ev hm hd hdh
      rcases List.mem_singleton.mp hm with rfl
      cases hdh
  rcases hsd with ⟨evs, hevs, hhd⟩
  refine ⟨evs, hevs, ?_, hdec, httl, hhd⟩
  rw [forward_eq_of_lookup sr fr h rte hlk, hevs]
  rfl

/-- Witness for claim C5, at the router `sr4`, the TTL-1 datagram `hdr4`
and its matched `/24` route. -/
theorem forward_ttl_decrement_in_dispatch_witness :
    ∃ evs,
      sendIPDatagram sr4 entry24.gw entry24.iface hdr4 none = some evs ∧
      forward sr4 none hdr4 = some (Event.routeLookup hdr4 :: evs) ∧
      ip_dec_ttl hdr4 = some (decTtlHdr hdr4) ∧
      (decTtlHdr hdr4).ip_ttl + 1 = hdr4.ip_ttl ∧
      ∀ ev ∈ evs, ∀ hd, dispatchHeader ev = some hd → hd = decTtlHdr hdr4 :=
  forward_ttl_decrement_in_dispatch sr4 none hdr4 entry24 (by decide) (by decide)

/-- Claim C6: for a header with positive TTL, `ip_dec_ttl` produces a
header whose TTL is the original minus one, whose checksum field equals
the one's-complement checksum freshly recomputed over the modified header
(so it re-validates), and whose other fields are unchanged. -/
theorem ip_dec_ttl_spec :
    ∀ h : ip, 0 < h.ip_ttl →
      ∃ h', ip_dec_ttl h = some h' ∧
        h'.ip_ttl = h.ip_ttl - 1 ∧
        h'.ip_sum = csumHeader h' ∧
        h'.ip_hl = h.ip_hl ∧ h'.ip_v = h.ip_v ∧ h'.ip_tos = h.ip_tos ∧
        h'.ip_len = h.ip_len ∧ h'.ip_id = h.ip_id ∧ h'.ip_off = h.ip_off ∧
        h'.ip_p = h.ip_p ∧ h'.ip_src = h.ip_src ∧ h'.ip_dst = h.ip_dst := by
  intro h ht
  refine ⟨decTtlHdr h, ?_, rfl, rfl, rfl, rfl, rfl, rfl, rfl, rfl, rfl, rfl, rfl⟩
  unfold ip_dec_ttl
  rw [if_neg (Nat.pos_iff_ne_zero.mp ht)]

/-- Witness for claim C6: the header `hdr5` arriving with TTL 5 leaves
`ip_dec_ttl` with TTL 4 and a checksum that re-validates. -/
theorem ip_dec_ttl_spec_witness :
    ∃ h', ip_dec_ttl hdr5 = some h' ∧
      h'.ip_ttl = hdr5.ip_ttl - 1 ∧
      h'.ip_sum = csumHeader h' ∧
      h'.ip_hl = hdr5.ip_hl ∧ h'.ip_v = hdr5.ip_v ∧ h'.ip_tos = hdr5.ip_tos ∧
      h'.ip_len = hdr5.ip_len ∧ h'.ip_id = hdr5.ip_id ∧ h'.ip_off = hdr5.ip_off ∧
      h'.ip_p = hdr5.ip_p ∧ h'.ip_src = hdr5.ip_src ∧ h'.ip_dst = hdr5.ip_dst :=
  ip_dec_ttl_spec hdr5 (by decide)

/-- Claim C7 counterexample: `setupIPHeaderForICMP` never writes the
checksum field, so when the freshly allocated memory `mem7x` happens to
hold a wrong value in the checksum slot, the produced header's checksum
field differs from the checksum computed over that header — refuting
"a freshly computed checksum stored in the checksum field". -/
theorem setupIPHeaderForICMP_checksum_counterexample :
    r7x = setupIPHeaderForICMP mem7x 48 (ntohl 0x0A000001) (ntohl 0x0C000001) ∧
    r7x.ip_sum ≠ csumHeader r7x := by
  refine ⟨rfl, ?_⟩
  decide

/-- Claim C7 (amended): `setupIPHeaderForICMP` produces a header with
version 4, header length 5, the default type of service, the given total
length, the fixed default identification and fragment offset, the fixed
default initial TTL, protocol ICMP and the given source and destination
addresses — but it does not compute a checksum: the checksum field keeps
whatever the underlying memory held (the checksum is computed later, by
`ip_dec_ttl` inside `sendIPDatagram`). -/
theorem setupIPHeaderForICMP_fields :
    ∀ (h0 : ip) (totalLen src dst : Nat),
      (setupIPHeaderForICMP h0 totalLen src dst).ip_v = IPV4_VERSION ∧
      (setupIPHeaderForICMP h0 totalLen src dst).ip_hl = DEFAULT_IP_HEADER_LEN ∧
      (setupIPHeaderForICMP h0 totalLen src dst).ip_tos = DEFAULT_IP_TOS ∧
      (setupIPHeaderForICMP h0 totalLen src dst).ip_len = htons totalLen ∧
      (setupIPHeaderForICMP h0 totalLen src dst).ip_id = htons DEFAULT_IP_ID ∧
      (setupIPHeaderForICMP h0 totalLen src dst).ip_off = htons DEFAULT_IP_FRAGMENT ∧
      (setupIPHeaderForICMP h0 totalLen src dst).ip_ttl = DEFAULT_IP_TTL ∧
      (setupIPHeaderForICMP h0 totalLen src dst).ip_p = IPPROTO_ICMP ∧
      (setupIPHeaderForICMP h0 totalLen src dst).ip_src = src ∧
      (setupIPHeaderForICMP h0 totalLen src dst).ip_dst = dst ∧
      (setupIPHeaderForICMP h0 totalLen src dst).ip_sum = h0.ip_sum := by
  intro h0 t s d
  exact ⟨rfl, rfl, rfl, rfl, rfl, rfl, rfl, rfl, rfl, rfl, rfl⟩

/-- Claim C8: a call to `sendIcmpMessageWithSrcIP` (or to the
source-defaulting `sendIcmpMessage`) whose destination has no route, with
the asserted preconditions met, returns normally with an empty trace: no
allocation, no dispatcher invocation, no transmit and no enqueue. -/
theorem sendIcmp_noRoute_noop :
    ∀ (sr : sr_instance) (icmp_msg_len dest_ip src_ip : Nat) (mem : ip),
      lookupRoutingTable sr.routing_table dest_ip = none →
      MIN_ICMP_MSG_LEN ≤ icmp_msg_len →
      dest_ip ≠ 0 →
      src_ip ≠ 0 →
      sendIcmpMessageWithSrcIP sr icmp_msg_len dest_ip src_ip mem = some [] ∧
      ∀ iface rest, sr.if_list = iface :: rest → iface.ip ≠ 0 →
        sendIcmpMessage sr icmp_msg_len dest_ip mem = some [] := by
  intro sr len dest src mem hlk hlen hdest hsrc
  have key : ∀ s, s ≠ 0 →
      sendIcmpMessageWithSrcIP sr len dest s mem = some [] := by
    intro s hs
    unfold sendIcmpMessageWithSrcIP
    rw [if_neg (Nat.not_lt.mpr hlen), if_neg hs, if_neg hdest, hlk]
  refine ⟨key src hsrc, ?_⟩
  intro iface rest hif hip
  unfold sendIcmpMessage
  rw [if_neg (Nat.not_lt.mpr hlen), if_neg hdest, hif]
  exact key iface.ip hip

/-- Witness for claim C8: `sr8` has an empty routing table, so sending an
8-byte ICMP message to `12.0.0.1` is a silent no-op in both variants. -/
theorem sendIcmp_noRoute_noop_witness :
    sendIcmpMessageWithSrcIP sr8 8 (ntohl 0x0C000001) (ntohl 0x0A000001) mem7 =
      some [] ∧
    ∀ iface rest, sr8.if_list = iface :: rest → iface.ip ≠ 0 →
      sendIcmpMessage sr8 8 (ntohl 0x0C000001) mem7 = some [] :=
  sendIcmp_noRoute_noop sr8 8 (ntohl 0x0C000001) (ntohl 0x0A000001) mem7
    (by decide) (by decide) (by decide) (by decide)

/-- Claim C9: when resolution answers `requestSent` (Pending), the
dispatcher's trace is exactly one enqueue keyed by the next-hop IP whose
resolution is pending — zero transmit calls — and it returns. -/
theorem sendIPDatagram_pending_enqueues :
    ∀ (sr : sr_instance) (next_hop_ip : Nat) (iface : String) (h : ip)
      (eth_frame : Option Unit),
      h.ip_ttl ≠ 0 →
      sr.resolve next_hop_ip iface = ARPResult.requestSent →
      sendIPDatagram sr next_hop_ip iface h eth_frame =
        some [Event.enqueue next_hop_ip iface (decTtlHdr h)] ∧
      [Event.enqueue next_hop_ip iface (decTtlHdr h)].filter isTransmit = [] ∧
      [Event.enqueue next_hop_ip iface (decTtlHdr h)].filter isEnqueue =
        [Event.enqueue next_hop_ip iface (decTtlHdr h)] := by
  intro sr nh ifc h fr ht hres
  have hdec : ip_dec_ttl h = some (decTtlHdr h) := by
    unfold ip_dec_ttl
    rw [if_neg ht]
  refine ⟨?_, rfl, rfl⟩
  unfold sendIPDatagram
  rw [hdec, hres]

/-- Witness for claim C9, at the router `sr4` (whose resolver always
answers `requestSent`) dispatching `hdr4` toward the `/24` gateway. -/
theorem sendIPDatagram_pending_enqueues_witness :
    sendIPDatagram sr4 (ntohl 0x0A000102) "eth1" hdr4 none =
      some [Event.enqueue (ntohl 0x0A000102) "eth1" (decTtlHdr hdr4)] ∧
    [Event.enqueue (ntohl 0x0A000102) "eth1" (decTtlHdr hdr4)].filter isTransmit =
      [] ∧
    [Event.enqueue (ntohl 0x0A000102) "eth1" (decTtlHdr hdr4)].filter isEnqueue =
      [Event.enqueue (ntohl 0x0A000102) "eth1" (decTtlHdr hdr4)] :=
  sendIPDatagram_pending_enqueues sr4 (ntohl 0x0A000102) "eth1" hdr4 none
    (by decide) (by decide)

end RouterIP
